import Mathlib

/-!
Shallow embedding of the KitaabSe audiobook pipeline
(src/audiobooks/tasks.py, src/audiobooks/audio_generator.py,
src/audiobooks/services/pdf_processor*.py,
src/audiobooks/services/tts_generator.py) together with theorems
settling the frozen specification claims.
-/

namespace KitaabSe

/-- ASCII whitespace characters recognized by Python `str.split()` /
`str.strip()` with no arguments (space, tab, newline, carriage return,
vertical tab, form feed). -/
def isPyWS (c : Char) : Bool :=
  c = ' ' || c = '\t' || c = '\n' || c = '\r' || c = Char.ofNat 11 || c = Char.ofNat 12

/-- Python `s.strip()`: drop leading and trailing whitespace. -/
def pyStrip (s : String) : String :=
  String.mk (((s.toList.dropWhile isPyWS).reverse.dropWhile isPyWS).reverse)

/-- Tokens of Python `s.split()` over a character list: the maximal runs
of non-whitespace characters.  `acc` holds the current token reversed. -/
def pyTokensAux : List Char → List Char → List (List Char)
  | [], acc => if acc = [] then [] else [acc.reverse]
  | c :: cs, acc =>
    if isPyWS c then
      if acc = [] then pyTokensAux cs [] else acc.reverse :: pyTokensAux cs []
    else pyTokensAux cs (c :: acc)

/-- Python `s.split()` with no argument: whitespace-run tokenization. -/
def pySplit (s : String) : List String :=
  (pyTokensAux s.toList []).map String.mk

/-- Python `' '.join(s.split())`: collapse every whitespace run to a
single space, dropping leading/trailing whitespace. -/
def pyCollapse (s : String) : String :=
  String.intercalate " " (pySplit s)

/-- Splitting at every occurrence of a separator character, keeping empty
pieces. `acc` holds the current piece reversed. -/
def splitSepAux (sep : Char) : List Char → List Char → List (List Char)
  | [], acc => [acc.reverse]
  | c :: cs, acc =>
    if c = sep then acc.reverse :: splitSepAux sep cs []
    else splitSepAux sep cs (c :: acc)

/-- Python `s.split('\n')`. -/
def splitLines (s : String) : List String :=
  (splitSepAux '\n' s.toList []).map String.mk

/-- `PDFProcessor._clean_text` (plain-text strategy, pdf_processor.py):
`' '.join(text.split())` then `strip()`. -/
def PDFProcessor.clean_text (text : String) : String :=
  if text = "" then ""
  else pyStrip (pyCollapse text)

/-- `PDFProcessorOCR._clean_text` (pdf_processor_ocr.py): strip each line,
drop blank lines, re-join with newlines, then `' '.join(text.split())`
and `strip()`. -/
def PDFProcessorOCR.clean_text (text : String) : String :=
  if text = "" then ""
  else
    let lines := splitLines text
    let cleaned := (lines.filter (fun l => pyStrip l ≠ "")).map pyStrip
    pyStrip (pyCollapse (String.intercalate "\n" cleaned))

/-- `PDFProcessorGemini._clean_text` (pdf_processor_gemini.py): strip each
line, drop blank lines, re-join with newlines, then collapse spaces
within each line separately (preserving line breaks), and `strip()`. -/
def PDFProcessorGemini.clean_text (text : String) : String :=
  if text = "" then ""
  else
    let lines := splitLines text
    let cleaned := (lines.filter (fun l => pyStrip l ≠ "")).map pyStrip
    let t := String.intercalate "\n" cleaned
    pyStrip (String.intercalate "\n" ((splitLines t).map pyCollapse))

/-- Processing status enumeration shared by `Book.STATUS_CHOICES` and
`BookPage.STATUS_CHOICES` (models.py). -/
inductive PStatus where
  | uploaded
  | pending
  | processing
  | completed
  | failed
deriving DecidableEq, Repr

/-- `BookPage` model (models.py): the fields the pipeline reads/writes. -/
structure BookPage where
  page_number : Nat
  text_content : String
  audio_file : Option String
  audio_duration : Nat
  processing_status : PStatus
  processing_error : Option String
deriving DecidableEq, Repr

/-- `Book` model (models.py): the fields the pipeline reads/writes. -/
structure Book where
  language : String
  total_pages : Nat
  total_duration : Nat
  processing_status : PStatus
  processing_progress : Nat
  processing_error : Option String
deriving DecidableEq, Repr

/-- Result dict of `TTSGenerator.generate_audio_async`. -/
structure TTSResult where
  success : Bool
  output_path : Option String
  duration : Nat
  error : Option String
deriving DecidableEq, Repr

/-- Oracle for one invocation of the external Edge-TTS service. -/
inductive ServiceOutcome where
  | ok (duration : Nat)
  | err (msg : String)
deriving DecidableEq, Repr

/-- `TTSGenerator.generate_audio_async` (tts_generator.py). The second
component counts invocations of the external speech service. -/
def TTSGenerator.generate_audio_async (text : String) (output_path : String)
    (svc : ServiceOutcome) : TTSResult × Nat :=
  if text = "" ∨ pyStrip text = "" then
    ({ success := false, output_path := none, duration := 0,
       error := some "No text content to convert" }, 0)
  else
    match svc with
    | .ok d => ({ success := true, output_path := some output_path, duration := d,
                  error := none }, 1)
    | .err m => ({ success := false, output_path := none, duration := 0,
                   error := some m }, 1)

/-- Combined oracle for one page's synthesis attempt: either the TTS call
and the subsequent upload both succeed (yielding a duration and a durable
URL), or the attempt raises with an error message. -/
inductive SynthOutcome where
  | ok (duration : Nat) (url : String)
  | fail (msg : String)
deriving DecidableEq, Repr

/-- `max_retries` of the Celery task `generate_page_audio` (tasks.py). -/
def max_retries : Nat := 3

/-- Outcome of one run of the queued task `generate_page_audio`:
the page's final state, whether the task returned a success dict,
how many synthesis calls and uploads happened, and whether/when
`self.retry` re-enqueued the task. -/
structure QueuedTaskResult where
  page : BookPage
  success : Bool
  synth_calls : Nat
  uploads : Nat
  retry_scheduled : Bool
  retry_countdown : Nat
deriving DecidableEq, Repr

/-- Queued task `generate_page_audio` (tasks.py).  `is_rate_limit` is the
code's classification of the raised error message (`'429' in msg or
'rate limit' in msg.lower()`); `retries` is Celery's retry counter for
this task (0 on the first attempt).  `self.retry` re-delivers the task
only while `retries < max_retries`. -/
def generate_page_audio (page : BookPage) (synth : SynthOutcome)
    (is_rate_limit : Bool) (retries : Nat) : QueuedTaskResult :=
  if page.processing_status = PStatus.completed then
    { page := page, success := true, synth_calls := 0, uploads := 0,
      retry_scheduled := false, retry_countdown := 0 }
  else
    let page1 : BookPage := { page with processing_status := PStatus.processing }
    if page1.text_content = "" ∨ pyStrip page1.text_content = "" then
      { page := { page1 with processing_status := PStatus.completed,
                             processing_error := some "No text content" },
        success := true, synth_calls := 0, uploads := 0,
        retry_scheduled := false, retry_countdown := 0 }
    else
      match synth with
      | .ok d url =>
        { page := { page1 with audio_file := some url, audio_duration := d,
                               processing_status := PStatus.completed },
          success := true, synth_calls := 1, uploads := 1,
          retry_scheduled := false, retry_countdown := 0 }
      | .fail msg =>
        let page2 : BookPage :=
          if !is_rate_limit || max_retries ≤ retries then
            { page1 with processing_status := PStatus.failed,
                         processing_error := some msg }
          else
            { page1 with processing_status := PStatus.pending }
        { page := page2, success := false, synth_calls := 1, uploads := 0,
          retry_scheduled := retries < max_retries,
          retry_countdown := 60 * 3 ^ retries }

/-- Result dict of the inline `generate_audio_for_page`. -/
structure InlineResult where
  success : Bool
  message : String
  duration : Nat
  audio_url : Option String
deriving DecidableEq, Repr

/-- One inline page run: the returned dict, the page's final state, and
the synthesis/upload counts. -/
structure InlinePageOutcome where
  result : InlineResult
  page : BookPage
  synth_calls : Nat
  uploads : Nat
deriving DecidableEq, Repr

/-- Inline `generate_audio_for_page` (audio_generator.py). -/
def generate_audio_for_page (page : BookPage) (synth : SynthOutcome) :
    InlinePageOutcome :=
  if page.processing_status = PStatus.completed ∧ page.audio_file.isSome then
    { result := { success := true, message := "Already processed",
                  duration := page.audio_duration, audio_url := page.audio_file },
      page := page, synth_calls := 0, uploads := 0 }
  else
    let page1 : BookPage := { page with processing_status := PStatus.processing }
    if page1.text_content = "" ∨ pyStrip page1.text_content = "" then
      { result := { success := true, message := "No text content (skipped)",
                    duration := 0, audio_url := none },
        page := { page1 with processing_status := PStatus.completed,
                             processing_error := some "No text content" },
        synth_calls := 0, uploads := 0 }
    else
      match synth with
      | .ok d url =>
        { result := { success := true, message := "Audio generated successfully",
                      duration := d, audio_url := some url },
          page := { page1 with audio_file := some url, audio_duration := d,
                               processing_status := PStatus.completed },
          synth_calls := 1, uploads := 1 }
      | .fail msg =>
        { result := { success := false, message := msg, duration := 0,
                      audio_url := none },
          page := { page1 with processing_status := PStatus.failed,
                               processing_error := some msg },
          synth_calls := 1, uploads := 0 }

/-- `floor(num * 2^s / den)` for an integer shift `s` (possibly negative). -/
def floorAt (num den : Nat) (s : Int) : Nat :=
  if 0 ≤ s then num * 2 ^ s.toNat / den else num / (den * 2 ^ (-s).toNat)

/-- Remainder of `num * 2^s` by `den`, together with the scaled
denominator it is to be compared against (for the rounding decision). -/
def remAt (num den : Nat) (s : Int) : Nat × Nat :=
  if 0 ≤ s then (num * 2 ^ s.toNat % den, den)
  else (num % (den * 2 ^ (-s).toNat), den * 2 ^ (-s).toNat)

/-- Bit length by structural recursion on a fuel argument (the fuel `n`
itself is always enough, since halving reaches 0 within `n` steps). -/
def bitsAux : Nat → Nat → Nat
  | 0, _ => 0
  | fuel + 1, n => if n = 0 then 0 else bitsAux fuel (n / 2) + 1

/-- Number of binary digits of `n` (0 for 0). -/
def bitLen (n : Nat) : Nat := bitsAux n n

/-- The shift `s` that normalizes the positive rational `num/den` so that
`floor(num * 2^s / den)` lies in `[2^52, 2^53)`: the estimate from the
bit lengths is off by at most one, always on the low side. -/
def normShift (num den : Nat) : Int :=
  let s0 : Int := 52 + (bitLen den : Int) - (bitLen num : Int)
  if floorAt num den s0 < 2 ^ 52 then s0 + 1 else s0

/-- The IEEE-754 binary64 value nearest to the positive rational
`num/den` (53-bit mantissa, round half to even, unbounded exponent):
returns `(m, e)` with value `m * 2^e` and `2^52 ≤ m < 2^53`.  With an
unbounded exponent this is exact for every input whose true quotient
lies in the double's normal range, which covers any realistic page
count. -/
def roundFloat (num den : Nat) : Nat × Int :=
  let s := normShift num den
  let q := floorAt num den s
  let rd := remAt num den s
  let m :=
    if 2 * rd.1 < rd.2 then q
    else if rd.2 < 2 * rd.1 then q + 1
    else if q % 2 = 0 then q else q + 1
  if m = 2 ^ 53 then (2 ^ 52, 1 - s) else (m, -s)

/-- Python `int((c / t) * 100)` evaluated in IEEE-754 binary64 exactly as
CPython does (tasks.py line 252, audio_generator.py line 161): `c / t` is
the correctly-rounded double quotient, `* 100` the correctly-rounded
double product, and `int` truncates toward zero.  This can be one less
than `floor(100 * c / t)` when the binary rounding falls just below the
exact value (e.g. `pyPercent 29 50 = 57` while `floor(2900/50) = 58`). -/
def pyPercent (c t : Nat) : Nat :=
  if c = 0 then 0
  else
    let f := roundFloat c t
    let p := roundFloat (f.1 * 100) 1
    let ee : Int := f.2 + p.2
    if 0 ≤ ee then p.1 * 2 ^ ee.toNat else p.1 / 2 ^ (-ee).toNat

/-- Number of pages whose status is `completed` (this counts the
empty-text skipped pages, which also end in status `completed`). -/
def completedCount (pages : List BookPage) : Nat :=
  (pages.filter (fun p => decide (p.processing_status = PStatus.completed))).length

/-- Number of pages whose status is `failed`. -/
def failedCount (pages : List BookPage) : Nat :=
  (pages.filter (fun p => decide (p.processing_status = PStatus.failed))).length

/-- `update_book_progress` (tasks.py): the queued-mode aggregator,
given the book and its current pages. -/
def update_book_progress (book : Book) (pages : List BookPage) : Book :=
  let total_pages := pages.length
  let completed_pages := completedCount pages
  if 0 < total_pages then
    let book1 : Book := { book with processing_progress := pyPercent completed_pages total_pages }
    if completed_pages = total_pages then
      { book1 with processing_status := PStatus.completed,
                   total_duration := (pages.map (fun p => p.audio_duration)).sum }
    else book1
  else book

/-- Counters accumulated by the inline loop in `generate_all_audio_for_book`. -/
structure InlineCounts where
  success_count : Nat
  failed_count : Nat
  skipped_count : Nat
  total_duration : Nat
deriving DecidableEq, Repr

/-- The per-page loop of `generate_all_audio_for_book`: runs
`generate_audio_for_page` on each page in order (the oracle `synth` is
indexed by position `i`) and classifies each result exactly as the code
does (by the returned message). -/
def runPages : List BookPage → (Nat → SynthOutcome) → Nat → List BookPage × InlineCounts
  | [], _, _ => ([], ⟨0, 0, 0, 0⟩)
  | p :: ps, synth, i =>
    let o := generate_audio_for_page p (synth i)
    let rest := runPages ps synth (i + 1)
    let c := rest.2
    (o.page :: rest.1,
      if o.result.success then
        if o.result.message = "No text content (skipped)" then
          { c with skipped_count := c.skipped_count + 1 }
        else
          { c with success_count := c.success_count + 1,
                   total_duration := c.total_duration + o.result.duration }
      else { c with failed_count := c.failed_count + 1 })

/-- Result of one inline run over a whole book. -/
structure InlineRunResult where
  book : Book
  pages : List BookPage
  counts : InlineCounts
deriving DecidableEq, Repr

/-- Inline `generate_all_audio_for_book` (audio_generator.py), including
its final book rollup. -/
def generate_all_audio_for_book (book : Book) (pages : List BookPage)
    (synth : Nat → SynthOutcome) : InlineRunResult :=
  let total_pages := pages.length
  let res := runPages pages synth 0
  let c := res.2
  let book1 : Book :=
    if c.failed_count = 0 then
      { book with processing_status := PStatus.completed, processing_progress := 100 }
    else
      { book with processing_status := PStatus.completed,
                  processing_progress := pyPercent (c.success_count + c.skipped_count) total_pages }
  { book := { book1 with total_duration := c.total_duration },
    pages := res.1, counts := c }

/-- A book together with its `modified_at` timestamp (seconds). -/
structure BookRecord where
  book : Book
  modified_at : Int
deriving DecidableEq, Repr

/-- The 2-hour staleness threshold of `cleanup_failed_books`, in seconds. -/
def two_hours : Int := 2 * 60 * 60

/-- A book record is stuck when its status has remained `processing` with
no modification for more than 2 hours. -/
def isStuck (now : Int) (r : BookRecord) : Prop :=
  r.book.processing_status = PStatus.processing ∧ r.modified_at < now - two_hours

instance (now : Int) (r : BookRecord) : Decidable (isStuck now r) := by
  unfold isStuck; infer_instance

/-- The forced transition the sweep applies to a stuck book. -/
def forceTimeout (r : BookRecord) : BookRecord :=
  { r with book := { r.book with processing_status := PStatus.failed,
                                 processing_error := some "Processing timeout" } }

/-- `cleanup_failed_books` (tasks.py): the periodic staleness sweep at
wall-clock `now`: every book stuck in `processing` for more than 2 hours
is forced to `failed` with a timeout error; all others are untouched. -/
def cleanup_failed_books (now : Int) (books : List BookRecord) : List BookRecord :=
  books.map (fun r => if isStuck now r then forceTimeout r else r)

/-- A page together with its owning book id and `created_at` timestamp. -/
structure PageRecord where
  book_id : Nat
  page : BookPage
  created_at : Int
deriving DecidableEq, Repr

/-- The 24-hour window of `retry_failed_pages`, in seconds. -/
def twenty_four_hours : Int := 24 * 60 * 60

/-- `retry_failed_pages` (tasks.py): the periodic retry sweep; returns the
(book id, page number) synthesis tasks it enqueues, one for every page
whose status is `failed` and whose `created_at` is within the last
24 hours — regardless of the owning book's status. -/
def retry_failed_pages (now : Int) (pages : List PageRecord) : List (Nat × Nat) :=
  ((pages.filter (fun r => decide (r.page.processing_status = PStatus.failed)
      && decide (now - twenty_four_hours ≤ r.created_at))).map
    (fun r => (r.book_id, r.page.page_number)))

/-- Outcome of extracting one page: the raw text, or a raised per-page
exception. -/
inductive PageExtract where
  | ok (text : String)
  | err
deriving DecidableEq, Repr

/-- One entry of the extraction result's `pages` list. -/
structure PageData where
  page_number : Nat
  text : String
deriving DecidableEq, Repr

/-- Result dict of `extract_pages` / `extract_pages_with_ocr`. -/
structure ExtractResult where
  success : Bool
  total_pages : Nat
  pages : List PageData
  error : Option String
deriving DecidableEq, Repr

/-- `PDFProcessor.extract_pages` (pdf_processor.py), on a document that
opened successfully with `total_pages` pages; `raw i` is the outcome of
extracting page `i` (1-based).  A per-page exception is recorded as an
empty-text entry and processing proceeds. -/
def PDFProcessor.extract_pages (total_pages : Nat) (raw : Nat → PageExtract) :
    ExtractResult :=
  { success := true, total_pages := total_pages,
    pages := (List.range total_pages).map (fun i =>
      match raw (i + 1) with
      | .ok t => { page_number := i + 1, text := PDFProcessor.clean_text t }
      | .err => { page_number := i + 1, text := "" }),
    error := none }

/-- `PDFProcessorOCR.extract_pages_with_ocr` (pdf_processor_ocr.py) with
`use_ocr=True`, on a document that opened and rendered successfully with
`total_pages` page images; `raw i` is the OCR outcome for page `i`.
A per-page exception is recorded as an empty-text entry and processing
proceeds. -/
def PDFProcessorOCR.extract_pages_with_ocr (total_pages : Nat)
    (raw : Nat → PageExtract) : ExtractResult :=
  { success := true, total_pages := total_pages,
    pages := (List.range total_pages).map (fun i =>
      match raw (i + 1) with
      | .ok t => { page_number := i + 1, text := PDFProcessorOCR.clean_text t }
      | .err => { page_number := i + 1, text := "" }),
    error := none }

/-- A blank page as created by extraction of an empty page: whitespace-only
text, no audio, default duration 0, status `pending`. -/
def blankPage : BookPage :=
  { page_number := 1, text_content := "   ", audio_file := none,
    audio_duration := 0, processing_status := PStatus.pending, processing_error := none }

/-- A freshly created page with text, awaiting synthesis. -/
def pendPage (i : Nat) : BookPage :=
  { page_number := i, text_content := "hello", audio_file := none,
    audio_duration := 0, processing_status := PStatus.pending, processing_error := none }

/-- A page whose synthesis succeeded. -/
def donePage (i : Nat) : BookPage :=
  { page_number := i, text_content := "hello", audio_file := some "url",
    audio_duration := 3, processing_status := PStatus.completed, processing_error := none }

/-- A page whose synthesis failed permanently. -/
def failPage (i : Nat) : BookPage :=
  { page_number := i, text_content := "hello", audio_file := none,
    audio_duration := 0, processing_status := PStatus.failed, processing_error := some "boom" }

/-- A 10-page book mid-processing. -/
def demoBook : Book :=
  { language := "hindi", total_pages := 10, total_duration := 0,
    processing_status := PStatus.processing, processing_progress := 0,
    processing_error := none }

/-- A zero-page book mid-processing. -/
def demoBook0 : Book :=
  { language := "hindi", total_pages := 0, total_duration := 0,
    processing_status := PStatus.processing, processing_progress := 0,
    processing_error := none }

/-- Ten pages of which page 7 failed permanently and the rest completed. -/
def demoPagesQ : List BookPage :=
  [donePage 1, donePage 2, donePage 3, donePage 4, donePage 5, donePage 6,
   failPage 7, donePage 8, donePage 9, donePage 10]

/-- Ten fresh pages awaiting synthesis. -/
def demoPendingPages : List BookPage :=
  (List.range 10).map (fun i => pendPage (i + 1))

/-- A synthesis oracle under which the 7th page (position 6) fails and
every other page succeeds. -/
def demoSynth : Nat → SynthOutcome :=
  fun i => if i = 6 then SynthOutcome.fail "boom" else SynthOutcome.ok 5 "url"

/-- A book stuck in `processing` since timestamp 0. -/
def stuckRecord : BookRecord :=
  { book := demoBook, modified_at := 0 }

/-- A book in `processing` modified recently (timestamp 15000). -/
def freshRecord : BookRecord :=
  { book := demoBook, modified_at := 15000 }

/-- A failed page of book 1 created recently (timestamp 19000). -/
def failedPageRecord : PageRecord :=
  { book_id := 1, page := failPage 7, created_at := 19000 }

/-- A per-page extraction oracle: page 1 extracts text, page 2 raises. -/
def demoRaw : Nat → PageExtract :=
  fun p => if p = 1 then PageExtract.ok "hi there" else PageExtract.err

/-- Fifty pages of which 29 completed and 21 failed permanently. -/
def pages50 : List BookPage :=
  ((List.range 29).map (fun i => donePage (i + 1)))
    ++ ((List.range 21).map (fun i => failPage (i + 30)))

/-- Fifty fresh pages awaiting synthesis. -/
def pending50 : List BookPage :=
  (List.range 50).map (fun i => pendPage (i + 1))

/-- A synthesis oracle under which the first 29 pages succeed and the
remaining 21 fail. -/
def demoSynth50 : Nat → SynthOutcome :=
  fun i => if i < 29 then SynthOutcome.ok 5 "url" else SynthOutcome.fail "boom"

/-- Reachability invariant of pipeline pages: a `completed` page either
has an audio asset or was an empty-text skip.  Both the queued task and
the inline run preserve it (pages are created `pending`, so it holds
initially). -/
theorem completed_page_invariant (page : BookPage) (synth : SynthOutcome)
    (rl : Bool) (r : Nat)
    (h : page.processing_status = PStatus.completed →
      page.audio_file ≠ none ∨ pyStrip page.text_content = "") :
    ((generate_page_audio page synth rl r).page.processing_status = PStatus.completed →
      (generate_page_audio page synth rl r).page.audio_file ≠ none
      ∨ pyStrip (generate_page_audio page synth rl r).page.text_content = "")
    ∧ ((generate_audio_for_page page synth).page.processing_status = PStatus.completed →
      (generate_audio_for_page page synth).page.audio_file ≠ none
      ∨ pyStrip (generate_audio_for_page page synth).page.text_content = "") := by
  have hblankcase : page.text_content = "" ∨ pyStrip page.text_content = "" →
      pyStrip page.text_content = "" := by
    rintro (he | he)
    · rw [he]; rfl
    · exact he
  constructor
  · by_cases h0 : page.processing_status = PStatus.completed
    · intro _
      simpa [generate_page_audio, h0] using h h0
    · by_cases hb : page.text_content = "" ∨ pyStrip page.text_content = ""
      · intro _
        simp only [generate_page_audio, if_neg h0, if_pos hb]
        exact Or.inr (hblankcase hb)
      · cases synth with
        | ok d url =>
          intro _
          simp [generate_page_audio, h0, hb]
        | fail m =>
          simp only [generate_page_audio, if_neg h0, if_neg hb]
          split <;> intro hco <;> simp at hco
  · by_cases h0 : page.processing_status = PStatus.completed ∧ page.audio_file.isSome
    · intro _
      simpa [generate_audio_for_page, h0] using h h0.1
    · by_cases hb : page.text_content = "" ∨ pyStrip page.text_content = ""
      · intro _
        simp only [generate_audio_for_page, if_neg h0, if_pos hb]
        exact Or.inr (hblankcase hb)
      · cases synth with
        | ok d url =>
          intro _
          simp [generate_audio_for_page, h0, hb]
        | fail m =>
          simp only [generate_audio_for_page, if_neg h0, if_neg hb]
          intro hco
          simp at hco

/-- C2 counterexample: the plain-text strategy's normalization does not
map "a   b\n\nc" to "a b\nc" — it flattens the line break. -/
theorem C2_counterexample :
    PDFProcessor.clean_text "a   b\n\nc" ≠ "a b\nc" := by decide

/-- C2 (amended): only the vision-model (Gemini) normalization preserves
line breaks, mapping "a   b\n\nc" to "a b\nc"; the plain-text and OCR
normalizations collapse every whitespace run — newlines included — to a
single space, mapping the same input to "a b c". -/
theorem C2_amended :
    PDFProcessorGemini.clean_text "a   b\n\nc" = "a b\nc"
    ∧ PDFProcessor.clean_text "a   b\n\nc" = "a b c"
    ∧ PDFProcessorOCR.clean_text "a   b\n\nc" = "a b c" := by
  exact ⟨by decide, by decide, by decide⟩

/-- C3 counterexample: on empty (or whitespace-only) text the synthesis
engine returns a result with `success = false`, i.e. an error result,
contradicting the claimed non-error result. -/
theorem C3_counterexample :
    (TTSGenerator.generate_audio_async "" "out.mp3" (ServiceOutcome.ok 5)).1.success = false
    ∧ (TTSGenerator.generate_audio_async "   " "out.mp3" (ServiceOutcome.ok 5)).1.success
        = false := by
  exact ⟨by decide, by decide⟩

/-- C3 (amended): on empty or whitespace-only text the engine returns an
error-flagged result (`success = false`, error "No text content to
convert") with duration 0 and without invoking the external service;
the page nevertheless ends `completed` with `audio_duration = 0` and no
synthesis call attempted, because both the queued task and the inline
runner check for blank text before ever invoking the engine. -/
theorem C3_amended (text output : String) (svc : ServiceOutcome)
    (page : BookPage) (synth : SynthOutcome) (rl : Bool) (r : Nat)
    (htext : pyStrip text = "") (hpage : pyStrip page.text_content = "")
    (hst : page.processing_status ≠ PStatus.completed)
    (hdur : page.audio_duration = 0) :
    ((TTSGenerator.generate_audio_async text output svc).1.success = false
      ∧ (TTSGenerator.generate_audio_async text output svc).1.duration = 0
      ∧ (TTSGenerator.generate_audio_async text output svc).1.error
          = some "No text content to convert"
      ∧ (TTSGenerator.generate_audio_async text output svc).2 = 0)
    ∧ ((generate_page_audio page synth rl r).page.processing_status = PStatus.completed
      ∧ (generate_page_audio page synth rl r).page.audio_duration = 0
      ∧ (generate_page_audio page synth rl r).success = true
      ∧ (generate_page_audio page synth rl r).synth_calls = 0)
    ∧ ((generate_audio_for_page page synth).page.processing_status = PStatus.completed
      ∧ (generate_audio_for_page page synth).page.audio_duration = 0
      ∧ (generate_audio_for_page page synth).result.success = true
      ∧ (generate_audio_for_page page synth).synth_calls = 0) := by
  refine ⟨?_, ?_, ?_⟩
  · simp [TTSGenerator.generate_audio_async, htext]
  · simp [generate_page_audio, hst, hpage, hdur]
  · by_cases hcs : page.processing_status = PStatus.completed ∧ page.audio_file.isSome
    · exact absurd hcs.1 hst
    · simp [generate_audio_for_page, hcs, hpage, hdur]

/-- C3 witness: instantiation at a concrete whitespace-only page. -/
theorem C3_witness :
    ((TTSGenerator.generate_audio_async "   " "out.mp3" (ServiceOutcome.ok 5)).1.success = false
      ∧ (TTSGenerator.generate_audio_async "   " "out.mp3" (ServiceOutcome.ok 5)).1.duration = 0
      ∧ (TTSGenerator.generate_audio_async "   " "out.mp3" (ServiceOutcome.ok 5)).1.error
          = some "No text content to convert"
      ∧ (TTSGenerator.generate_audio_async "   " "out.mp3" (ServiceOutcome.ok 5)).2 = 0)
    ∧ ((generate_page_audio blankPage (SynthOutcome.ok 5 "url") false 0).page.processing_status
          = PStatus.completed
      ∧ (generate_page_audio blankPage (SynthOutcome.ok 5 "url") false 0).page.audio_duration = 0
      ∧ (generate_page_audio blankPage (SynthOutcome.ok 5 "url") false 0).success = true
      ∧ (generate_page_audio blankPage (SynthOutcome.ok 5 "url") false 0).synth_calls = 0)
    ∧ ((generate_audio_for_page blankPage (SynthOutcome.ok 5 "url")).page.processing_status
          = PStatus.completed
      ∧ (generate_audio_for_page blankPage (SynthOutcome.ok 5 "url")).page.audio_duration = 0
      ∧ (generate_audio_for_page blankPage (SynthOutcome.ok 5 "url")).result.success = true
      ∧ (generate_audio_for_page blankPage (SynthOutcome.ok 5 "url")).synth_calls = 0) :=
  C3_amended "   " "out.mp3" (ServiceOutcome.ok 5) blankPage (SynthOutcome.ok 5 "url") false 0
    (by decide) (by decide) (by decide) (by decide)

/-- C4: re-invoking synthesis on a page already in status `completed` is a
no-op reporting success, with the audio asset reference and duration
unchanged and no synthesis or upload performed, in both the queued task
and the inline runner.  The hypothesis `hinv` is the reachability
invariant of pipeline pages (`completed_page_invariant`): a completed
page has an audio asset unless it was an empty-text skip. -/
theorem C4_idempotent (page : BookPage) (synth : SynthOutcome) (rl : Bool) (r : Nat)
    (hc : page.processing_status = PStatus.completed)
    (hinv : page.audio_file ≠ none ∨ pyStrip page.text_content = "") :
    generate_page_audio page synth rl r =
      { page := page, success := true, synth_calls := 0, uploads := 0,
        retry_scheduled := false, retry_countdown := 0 }
    ∧ ((generate_audio_for_page page synth).result.success = true
      ∧ (generate_audio_for_page page synth).page.audio_file = page.audio_file
      ∧ (generate_audio_for_page page synth).page.audio_duration = page.audio_duration
      ∧ (generate_audio_for_page page synth).synth_calls = 0
      ∧ (generate_audio_for_page page synth).uploads = 0) := by
  constructor
  · simp [generate_page_audio, hc]
  · rcases hinv with hsome | hblank
    · have hs : page.audio_file.isSome := Option.isSome_iff_ne_none.mpr hsome
      simp [generate_audio_for_page, hc, hs]
    · by_cases hs : page.audio_file.isSome
      · simp [generate_audio_for_page, hc, hs]
      · simp [generate_audio_for_page, hc, hs, hblank]

/-- C4 witness: instantiation at a concrete completed page with audio. -/
theorem C4_idempotent_witness :
    generate_page_audio (donePage 1) (SynthOutcome.ok 9 "url2") true 0 =
      { page := donePage 1, success := true, synth_calls := 0, uploads := 0,
        retry_scheduled := false, retry_countdown := 0 }
    ∧ ((generate_audio_for_page (donePage 1) (SynthOutcome.ok 9 "url2")).result.success = true
      ∧ (generate_audio_for_page (donePage 1) (SynthOutcome.ok 9 "url2")).page.audio_file
          = (donePage 1).audio_file
      ∧ (generate_audio_for_page (donePage 1) (SynthOutcome.ok 9 "url2")).page.audio_duration
          = (donePage 1).audio_duration
      ∧ (generate_audio_for_page (donePage 1) (SynthOutcome.ok 9 "url2")).synth_calls = 0
      ∧ (generate_audio_for_page (donePage 1) (SynthOutcome.ok 9 "url2")).uploads = 0) :=
  C4_idempotent (donePage 1) (SynthOutcome.ok 9 "url2") true 0 (by decide)
    (Or.inl (by decide))

/-- C5: for a page task failing with a rate-limit error, the retry delays
of attempts 1–3 (Celery retry counters 0, 1, 2) are exactly 60, 180 and
540 seconds (`60 * 3 ^ retries`); with retries remaining the page is set
back to `pending` and the task re-delivered; on the 4th failure (counter
3 = `max_retries`) the page is marked `failed` with the error recorded
and no further delivery is scheduled. -/
theorem C5_retry_backoff (page : BookPage) (msg : String) (r : Nat)
    (hst : page.processing_status ≠ PStatus.completed)
    (hne : ¬ (page.text_content = "" ∨ pyStrip page.text_content = "")) :
    ((generate_page_audio page (SynthOutcome.fail msg) true 0).retry_countdown = 60
      ∧ (generate_page_audio page (SynthOutcome.fail msg) true 1).retry_countdown = 180
      ∧ (generate_page_audio page (SynthOutcome.fail msg) true 2).retry_countdown = 540)
    ∧ (generate_page_audio page (SynthOutcome.fail msg) true r).retry_countdown = 60 * 3 ^ r
    ∧ (r < 3 →
        (generate_page_audio page (SynthOutcome.fail msg) true r).page.processing_status
            = PStatus.pending
        ∧ (generate_page_audio page (SynthOutcome.fail msg) true r).retry_scheduled = true)
    ∧ ((generate_page_audio page (SynthOutcome.fail msg) true 3).page.processing_status
          = PStatus.failed
      ∧ (generate_page_audio page (SynthOutcome.fail msg) true 3).page.processing_error
          = some msg
      ∧ (generate_page_audio page (SynthOutcome.fail msg) true 3).retry_scheduled = false) := by
  refine ⟨⟨?_, ?_, ?_⟩, ?_, ?_, ?_, ?_, ?_⟩
  · simp [generate_page_audio, hst, hne, max_retries]
  · simp [generate_page_audio, hst, hne, max_retries]
  · simp [generate_page_audio, hst, hne, max_retries]
  · simp [generate_page_audio, hst, hne]
  · intro hr
    have hnotle : ¬ max_retries ≤ r := by simp [max_retries]; omega
    constructor
    · simp [generate_page_audio, hst, hne, hnotle]
    · simp [generate_page_audio, hst, hne, max_retries]; omega
  · simp [generate_page_audio, hst, hne, max_retries]
  · simp [generate_page_audio, hst, hne, max_retries]
  · simp [generate_page_audio, hst, hne, max_retries]

/-- C5 witness: instantiation at a concrete pending page with text, at
retry counter 1. -/
theorem C5_retry_backoff_witness :
    ((generate_page_audio (pendPage 2) (SynthOutcome.fail "429") true 0).retry_countdown = 60
      ∧ (generate_page_audio (pendPage 2) (SynthOutcome.fail "429") true 1).retry_countdown = 180
      ∧ (generate_page_audio (pendPage 2) (SynthOutcome.fail "429") true 2).retry_countdown = 540)
    ∧ (generate_page_audio (pendPage 2) (SynthOutcome.fail "429") true 1).retry_countdown
        = 60 * 3 ^ 1
    ∧ (1 < 3 →
        (generate_page_audio (pendPage 2) (SynthOutcome.fail "429") true 1).page.processing_status
            = PStatus.pending
        ∧ (generate_page_audio (pendPage 2) (SynthOutcome.fail "429") true 1).retry_scheduled
            = true)
    ∧ ((generate_page_audio (pendPage 2) (SynthOutcome.fail "429") true 3).page.processing_status
          = PStatus.failed
      ∧ (generate_page_audio (pendPage 2) (SynthOutcome.fail "429") true 3).page.processing_error
          = some "429"
      ∧ (generate_page_audio (pendPage 2) (SynthOutcome.fail "429") true 3).retry_scheduled
          = false) :=
  C5_retry_backoff (pendPage 2) "429" 1 (by decide) (by decide)

/-- C10: processing a page whose extracted text is empty or
whitespace-only (starting from a not-yet-completed page with no audio
asset) leaves it in status `completed` with the non-null error message
"No text content" and a null audio asset reference, in both the queued
task and the inline runner: a completed page can carry a non-null error
message and no audio asset. -/
theorem C10_blank_page_completed (page : BookPage) (synth : SynthOutcome)
    (rl : Bool) (r : Nat)
    (hblank : pyStrip page.text_content = "")
    (hst : page.processing_status ≠ PStatus.completed)
    (haudio : page.audio_file = none) :
    ((generate_page_audio page synth rl r).page.processing_status = PStatus.completed
      ∧ (generate_page_audio page synth rl r).page.processing_error = some "No text content"
      ∧ (generate_page_audio page synth rl r).page.audio_file = none)
    ∧ ((generate_audio_for_page page synth).page.processing_status = PStatus.completed
      ∧ (generate_audio_for_page page synth).page.processing_error = some "No text content"
      ∧ (generate_audio_for_page page synth).page.audio_file = none) := by
  constructor
  · simp [generate_page_audio, hst, hblank, haudio]
  · have h0 : ¬ (page.processing_status = PStatus.completed ∧ page.audio_file.isSome) := by
      intro hx; exact hst hx.1
    simp [generate_audio_for_page, h0, hblank, haudio]

/-- C10 witness: instantiation at a concrete whitespace-only page. -/
theorem C10_blank_page_completed_witness :
    ((generate_page_audio blankPage (SynthOutcome.ok 5 "url") false 0).page.processing_status
        = PStatus.completed
      ∧ (generate_page_audio blankPage (SynthOutcome.ok 5 "url") false 0).page.processing_error
          = some "No text content"
      ∧ (generate_page_audio blankPage (SynthOutcome.ok 5 "url") false 0).page.audio_file = none)
    ∧ ((generate_audio_for_page blankPage (SynthOutcome.ok 5 "url")).page.processing_status
          = PStatus.completed
      ∧ (generate_audio_for_page blankPage (SynthOutcome.ok 5 "url")).page.processing_error
          = some "No text content"
      ∧ (generate_audio_for_page blankPage (SynthOutcome.ok 5 "url")).page.audio_file = none) :=
  C10_blank_page_completed blankPage (SynthOutcome.ok 5 "url") false 0
    (by decide) (by decide) (by decide)

/-- C7 counterexample: the inline completion path marks a book with zero
pages `completed`, so reaching `completed` does not require a positive
page count. -/
theorem C7_counterexample :
    (generate_all_audio_for_book demoBook0 [] demoSynth).book.processing_status
      = PStatus.completed := by decide

/-- C7 (amended): the queued-mode aggregator never sets `completed` when
the page count is zero (it leaves the book entirely unchanged), but the
inline completion path sets the book's status to `completed`
unconditionally — including when the page count is zero. -/
theorem C7_amended (book : Book) (pages : List BookPage) (synth : Nat → SynthOutcome) :
    (pages = [] → update_book_progress book pages = book)
    ∧ (generate_all_audio_for_book book pages synth).book.processing_status
        = PStatus.completed := by
  constructor
  · intro h
    subst h
    simp [update_book_progress]
  · simp only [generate_all_audio_for_book]
    split <;> rfl

/-- C7 witness: instantiation at a concrete zero-page book. -/
theorem C7_amended_witness :
    update_book_progress demoBook0 [] = demoBook0
    ∧ (generate_all_audio_for_book demoBook0 [] demoSynth).book.processing_status
        = PStatus.completed :=
  ⟨(C7_amended demoBook0 [] demoSynth).1 rfl, (C7_amended demoBook0 [] demoSynth).2⟩

/-- C8: when whole-document extraction succeeds, a per-page extraction
failure never fails the call: both the plain-text and the OCR strategy
return success with the full page count, one entry per page numbered
contiguously 1..total, and an empty-text entry for every failed page. -/
theorem C8_per_page_failure (n : Nat) (raw : Nat → PageExtract) (i : Nat)
    (hi : i < n) :
    ((PDFProcessor.extract_pages n raw).success = true
      ∧ (PDFProcessor.extract_pages n raw).total_pages = n
      ∧ (PDFProcessor.extract_pages n raw).pages.length = n
      ∧ ((PDFProcessor.extract_pages n raw).pages.map PageData.page_number)
          = (List.range n).map (fun j => j + 1)
      ∧ (raw (i + 1) = PageExtract.err →
          ((PDFProcessor.extract_pages n raw).pages[i]?).map PageData.text = some ""))
    ∧ ((PDFProcessorOCR.extract_pages_with_ocr n raw).success = true
      ∧ (PDFProcessorOCR.extract_pages_with_ocr n raw).total_pages = n
      ∧ (PDFProcessorOCR.extract_pages_with_ocr n raw).pages.length = n
      ∧ ((PDFProcessorOCR.extract_pages_with_ocr n raw).pages.map PageData.page_number)
          = (List.range n).map (fun j => j + 1)
      ∧ (raw (i + 1) = PageExtract.err →
          ((PDFProcessorOCR.extract_pages_with_ocr n raw).pages[i]?).map PageData.text
            = some "")) := by
  constructor
  · refine ⟨rfl, rfl, by simp [PDFProcessor.extract_pages], ?_, ?_⟩
    · simp only [PDFProcessor.extract_pages, List.map_map]
      refine List.map_congr_left (fun j _ => ?_)
      simp only [Function.comp_apply]
      cases raw (j + 1) <;> rfl
    · intro hraw
      simp [PDFProcessor.extract_pages, List.getElem?_range hi, hraw]
  · refine ⟨rfl, rfl, by simp [PDFProcessorOCR.extract_pages_with_ocr], ?_, ?_⟩
    · simp only [PDFProcessorOCR.extract_pages_with_ocr, List.map_map]
      refine List.map_congr_left (fun j _ => ?_)
      simp only [Function.comp_apply]
      cases raw (j + 1) <;> rfl
    · intro hraw
      simp [PDFProcessorOCR.extract_pages_with_ocr, List.getElem?_range hi, hraw]

/-- C8 witness: a 2-page document whose second page's extraction raises. -/
theorem C8_per_page_failure_witness :
    ((PDFProcessor.extract_pages 2 demoRaw).success = true
      ∧ (PDFProcessor.extract_pages 2 demoRaw).total_pages = 2
      ∧ (PDFProcessor.extract_pages 2 demoRaw).pages.length = 2
      ∧ ((PDFProcessor.extract_pages 2 demoRaw).pages.map PageData.page_number)
          = (List.range 2).map (fun j => j + 1)
      ∧ (demoRaw 2 = PageExtract.err →
          ((PDFProcessor.extract_pages 2 demoRaw).pages[1]?).map PageData.text = some ""))
    ∧ ((PDFProcessorOCR.extract_pages_with_ocr 2 demoRaw).success = true
      ∧ (PDFProcessorOCR.extract_pages_with_ocr 2 demoRaw).total_pages = 2
      ∧ (PDFProcessorOCR.extract_pages_with_ocr 2 demoRaw).pages.length = 2
      ∧ ((PDFProcessorOCR.extract_pages_with_ocr 2 demoRaw).pages.map PageData.page_number)
          = (List.range 2).map (fun j => j + 1)
      ∧ (demoRaw 2 = PageExtract.err →
          ((PDFProcessorOCR.extract_pages_with_ocr 2 demoRaw).pages[1]?).map PageData.text
            = some "")) :=
  C8_per_page_failure 2 demoRaw 1 (by decide)

/-- C9 counterexample: after the sweep forces a stuck book to `failed`,
the periodic failed-page retry sweep still schedules a synthesis task for
that book's recently created failed page — so page tasks for the swept
document can be scheduled afterward. -/
theorem C9_counterexample :
    ((cleanup_failed_books 20000 [stuckRecord]).map (fun r => r.book.processing_status)
        = [PStatus.failed])
    ∧ retry_failed_pages 20000 [failedPageRecord] = [(1, 7)] := by
  exact ⟨by decide, by decide⟩

/-- C9 (amended): the sweep forces every document stuck in `processing`
for more than 2 hours to `failed` with the timeout error recorded, and
leaves every other document (recently modified or in another status)
untouched; the sweep itself schedules nothing, but the periodic
failed-page retry sweep may still schedule synthesis tasks for such a
document's failed pages younger than 24 hours. -/
theorem C9_amended (now : Int) (books : List BookRecord) (ps : List PageRecord)
    (r : BookRecord) (rec : PageRecord) (hr : r ∈ books) (hrec : rec ∈ ps) :
    (isStuck now r →
      forceTimeout r ∈ cleanup_failed_books now books
      ∧ (forceTimeout r).book.processing_status = PStatus.failed
      ∧ (forceTimeout r).book.processing_error = some "Processing timeout")
    ∧ (¬ isStuck now r → r ∈ cleanup_failed_books now books)
    ∧ (rec.page.processing_status = PStatus.failed →
        now - twenty_four_hours ≤ rec.created_at →
        (rec.book_id, rec.page.page_number) ∈ retry_failed_pages now ps) := by
  refine ⟨?_, ?_, ?_⟩
  · intro hs
    refine ⟨List.mem_map.mpr ⟨r, hr, by simp [hs]⟩, rfl, rfl⟩
  · intro hs
    exact List.mem_map.mpr ⟨r, hr, by simp [hs]⟩
  · intro h1 h2
    refine List.mem_map.mpr ⟨rec, List.mem_filter.mpr ⟨hrec, by simp [h1, h2]⟩, rfl⟩

/-- C9 witness: at time 20000, a book stuck since time 0 is forced to
`failed`, a book modified at 15000 is untouched, and a failed page
created at 19000 is re-scheduled. -/
theorem C9_amended_witness :
    (forceTimeout stuckRecord ∈ cleanup_failed_books 20000 [stuckRecord, freshRecord]
      ∧ (forceTimeout stuckRecord).book.processing_status = PStatus.failed
      ∧ (forceTimeout stuckRecord).book.processing_error = some "Processing timeout")
    ∧ freshRecord ∈ cleanup_failed_books 20000 [stuckRecord, freshRecord]
    ∧ (1, 7) ∈ retry_failed_pages 20000 [failedPageRecord] :=
  ⟨(C9_amended 20000 [stuckRecord, freshRecord] [failedPageRecord] stuckRecord
      failedPageRecord (by simp) (by simp)).1 (by constructor <;> decide),
   (C9_amended 20000 [stuckRecord, freshRecord] [failedPageRecord] freshRecord
      failedPageRecord (by simp) (by simp)).2.1 (by intro hx; exact absurd hx.2 (by decide)),
   (C9_amended 20000 [stuckRecord, freshRecord] [failedPageRecord] stuckRecord
      failedPageRecord (by simp) (by simp)).2.2 (by decide) (by decide)⟩

/-- Unfolding equation for `runPages` on a non-empty page list. -/
theorem runPages_cons (p : BookPage) (ps : List BookPage)
    (synth : Nat → SynthOutcome) (i : Nat) :
    runPages (p :: ps) synth i
      = ((generate_audio_for_page p (synth i)).page :: (runPages ps synth (i + 1)).1,
         if (generate_audio_for_page p (synth i)).result.success then
           if (generate_audio_for_page p (synth i)).result.message
               = "No text content (skipped)" then
             { (runPages ps synth (i + 1)).2 with
                 skipped_count := (runPages ps synth (i + 1)).2.skipped_count + 1 }
           else
             { (runPages ps synth (i + 1)).2 with
                 success_count := (runPages ps synth (i + 1)).2.success_count + 1,
                 total_duration := (runPages ps synth (i + 1)).2.total_duration
                   + (generate_audio_for_page p (synth i)).result.duration }
         else
           { (runPages ps synth (i + 1)).2 with
               failed_count := (runPages ps synth (i + 1)).2.failed_count + 1 }) := rfl

/-- `completedCount` over a cons cell. -/
theorem completedCount_cons (x : BookPage) (l : List BookPage) :
    completedCount (x :: l)
      = (if x.processing_status = PStatus.completed then 1 else 0) + completedCount l := by
  by_cases hx : x.processing_status = PStatus.completed
  · simp [completedCount, List.filter_cons, hx, Nat.add_comm]
  · simp [completedCount, List.filter_cons, hx]

/-- `failedCount` over a cons cell. -/
theorem failedCount_cons (x : BookPage) (l : List BookPage) :
    failedCount (x :: l)
      = (if x.processing_status = PStatus.failed then 1 else 0) + failedCount l := by
  by_cases hx : x.processing_status = PStatus.failed
  · simp [failedCount, List.filter_cons, hx, Nat.add_comm]
  · simp [failedCount, List.filter_cons, hx]

/-- Every inline page run either reports success and leaves the page
`completed`, or reports failure and leaves the page `failed`. -/
theorem gafp_dichotomy (page : BookPage) (synth : SynthOutcome) :
    ((generate_audio_for_page page synth).result.success = true
      ∧ (generate_audio_for_page page synth).page.processing_status = PStatus.completed)
    ∨ ((generate_audio_for_page page synth).result.success = false
      ∧ (generate_audio_for_page page synth).page.processing_status = PStatus.failed) := by
  by_cases h0 : page.processing_status = PStatus.completed ∧ page.audio_file.isSome
  · left
    constructor
    · simp [generate_audio_for_page, h0]
    · simp [generate_audio_for_page, h0, h0.1]
  · by_cases hb : page.text_content = "" ∨ pyStrip page.text_content = ""
    · left; simp [generate_audio_for_page, h0, hb]
    · cases synth with
      | ok d url => left; simp [generate_audio_for_page, h0, hb]
      | fail m => right; simp [generate_audio_for_page, h0, hb]

/-- The inline loop's counters agree with the final page states: the
output list has one page per input page, `success + skipped` equals the
number of `completed` output pages, `failed` equals the number of
`failed` output pages, and every page ends in exactly one of the two. -/
theorem runPages_spec (synth : Nat → SynthOutcome) :
    ∀ (pages : List BookPage) (i : Nat),
      (runPages pages synth i).1.length = pages.length
      ∧ (runPages pages synth i).2.success_count + (runPages pages synth i).2.skipped_count
          = completedCount (runPages pages synth i).1
      ∧ (runPages pages synth i).2.failed_count = failedCount (runPages pages synth i).1
      ∧ (runPages pages synth i).2.success_count + (runPages pages synth i).2.skipped_count
          + (runPages pages synth i).2.failed_count = pages.length := by
  intro pages
  induction pages with
  | nil =>
    intro i
    simp [runPages, completedCount, failedCount]
  | cons p ps ih =>
    intro i
    obtain ⟨h1, h2, h3, h4⟩ := ih (i + 1)
    rcases gafp_dichotomy p (synth i) with ⟨hs, hc⟩ | ⟨hs, hf⟩
    · by_cases hm : (generate_audio_for_page p (synth i)).result.message
          = "No text content (skipped)"
      · rw [runPages_cons]
        simp [hs, hm, completedCount_cons, failedCount_cons, hc]
        omega
      · rw [runPages_cons]
        simp [hs, hm, completedCount_cons, failedCount_cons, hc]
        omega
    · rw [runPages_cons]
      simp [hs, completedCount_cons, failedCount_cons, hf]
      omega

/-- The binary64 division `n / n` is exactly 1.0: mantissa `2^52` with
exponent `-52`. -/
theorem roundFloat_self (n : Nat) (h : 0 < n) : roundFloat n n = (2 ^ 52, -52) := by
  have hfloor : floorAt n n 52 = 2 ^ 52 := by
    simp [floorAt, Nat.mul_div_cancel_left _ h]
  have hshift : normShift n n = 52 := by
    simp only [normShift]
    have he : (52 : Int) + (bitLen n : Int) - (bitLen n : Int) = 52 := by ring
    rw [he, hfloor]
    simp
  have hrem : remAt n n 52 = (0, n) := by
    simp [remAt, Nat.mul_mod_right]
  simp only [roundFloat, hshift, hfloor, hrem]
  have h2 : 2 * 0 < n := by omega
  rw [if_pos h2]
  simp

/-- Python `int((n / n) * 100)` is exactly 100 for every positive `n`. -/
theorem pyPercent_self (n : Nat) (h : 0 < n) : pyPercent n n = 100 := by
  have hne : ¬ n = 0 := by omega
  simp only [pyPercent, if_neg hne, roundFloat_self n h]
  decide

/-- C1 counterexample: at 29 completed pages of 50, both aggregators set
`processing_progress` to 57 — Python computes `int((29/50)*100)` in
binary64, where `(29/50)*100` rounds to just below 58 — while the
claimed formula `floor(100 * 29 / 50)` gives 58. -/
theorem C1_counterexample :
    ((update_book_progress demoBook pages50).processing_progress = 57
      ∧ 100 * completedCount pages50 / pages50.length = 58)
    ∧ ((generate_all_audio_for_book demoBook pending50 demoSynth50).book.processing_progress = 57
      ∧ 100 * completedCount (generate_all_audio_for_book demoBook pending50 demoSynth50).pages
          / pending50.length = 58) := by
  exact ⟨⟨by decide, by decide⟩, ⟨by decide, by decide⟩⟩

/-- C1 (amended): whenever the aggregators recompute progress over a
document with at least one page, the resulting `processing_progress`
equals the binary64 evaluation of Python's `int((completed / total) *
100)` — correctly-rounded double division and multiplication, then
truncation — where `completed` counts the pages in status `completed`
(empty-text skipped pages included).  This holds for the queued-mode
aggregator `update_book_progress` and for the final rollup of the inline
`generate_all_audio_for_book` (measured against the page states the run
itself produced); it agrees with `floor(100 * completed / total)` except
when the binary rounding falls just below the exact integer. -/
theorem C1_amended (book : Book) (pages : List BookPage)
    (synth : Nat → SynthOutcome) (h : 0 < pages.length) :
    (update_book_progress book pages).processing_progress
      = pyPercent (completedCount pages) pages.length
    ∧ (generate_all_audio_for_book book pages synth).book.processing_progress
      = pyPercent (completedCount (generate_all_audio_for_book book pages synth).pages)
          pages.length := by
  constructor
  · simp only [update_book_progress]
    rw [if_pos h]
    by_cases hc : completedCount pages = pages.length
    · rw [if_pos hc]
    · rw [if_neg hc]
  · obtain ⟨h1, h2, h3, h4⟩ := runPages_spec synth pages 0
    simp only [generate_all_audio_for_book]
    by_cases hfz : (runPages pages synth 0).2.failed_count = 0
    · rw [if_pos hfz]
      have hck : completedCount (runPages pages synth 0).1 = pages.length := by omega
      simp only [hck, pyPercent_self pages.length h]
    · rw [if_neg hfz]
      rw [← h2]

/-- C1 witness: closed instances for both aggregators. -/
theorem C1_amended_witness :
    (update_book_progress demoBook demoPagesQ).processing_progress
      = pyPercent (completedCount demoPagesQ) demoPagesQ.length
    ∧ (generate_all_audio_for_book demoBook demoPendingPages demoSynth).book.processing_progress
      = pyPercent (completedCount (generate_all_audio_for_book demoBook demoPendingPages
          demoSynth).pages) demoPendingPages.length :=
  ⟨(C1_amended demoBook demoPagesQ demoSynth (by decide)).1,
   (C1_amended demoBook demoPendingPages demoSynth (by decide)).2⟩

/-- C6 counterexample: with 9 of 10 pages `completed` and page 7
permanently `failed`, the queued-mode aggregator sets progress to 90 but
does not transition the document to `completed` — its status stays
`processing`, contradicting the claim for queued mode. -/
theorem C6_counterexample :
    (update_book_progress demoBook demoPagesQ).processing_status ≠ PStatus.completed
    ∧ (update_book_progress demoBook demoPagesQ).processing_progress = 90 := by
  exact ⟨by decide, by decide⟩

/-- C6 (amended): with 10 pages where page 7 permanently fails and the
other 9 succeed, the inline run marks the document `completed` with
`processing_progress = 90`; the queued-mode aggregator recomputes
`processing_progress = 90` but leaves the status unchanged
(`processing`), because it only transitions to `completed` when every
page is `completed`. -/
theorem C6_amended :
    ((generate_all_audio_for_book demoBook demoPendingPages demoSynth).book.processing_status
        = PStatus.completed
      ∧ (generate_all_audio_for_book demoBook demoPendingPages
          demoSynth).book.processing_progress = 90
      ∧ failedCount (generate_all_audio_for_book demoBook demoPendingPages demoSynth).pages
          = 1)
    ∧ ((update_book_progress demoBook demoPagesQ).processing_progress = 90
      ∧ (update_book_progress demoBook demoPagesQ).processing_status
          = PStatus.processing) := by
  exact ⟨⟨by decide, by decide, by decide⟩, ⟨by decide, by decide⟩⟩

end KitaabSe
